import Mathlib

/-!
Verification development for the repository
`IvanBlunar/Git_Caso_Web_Development_Specialist`.

The subject is the Shopify webhook handler
(`Componente_react/product-list/README.md`, which embeds
`webhook-handler.js`) and the paginated React list consumer
(`src/components/ProductList.jsx`).

Bytes are modelled as `List Nat` (each entry one octet).  The
cryptographic primitives the handler calls
(`crypto.createHmac('sha256', secret).update(rawBody).digest('base64')`)
are given a full executable model: SHA-256 per FIPS 180-4, HMAC per
RFC 2104 and the standard Base64 alphabet, so that theorems and their
witnesses evaluate the very digests the program compares.
-/

namespace WebhookRepo

/-- 32-bit truncation used by every SHA-256 word operation. -/
def w32 (n : Nat) : Nat := n % 4294967296

/-- Right rotation of a 32-bit word. -/
def rotr (n x : Nat) : Nat := w32 ((x >>> n) ||| (x <<< (32 - n)))

/-- SHA-256 `Ch` function. -/
def chFn (x y z : Nat) : Nat := (x &&& y) ^^^ ((x ^^^ 4294967295) &&& z)

/-- SHA-256 `Maj` function. -/
def majFn (x y z : Nat) : Nat := (x &&& y) ^^^ (x &&& z) ^^^ (y &&& z)

/-- SHA-256 Σ₀. -/
def bigSigma0 (x : Nat) : Nat := rotr 2 x ^^^ rotr 13 x ^^^ rotr 22 x

/-- SHA-256 Σ₁. -/
def bigSigma1 (x : Nat) : Nat := rotr 6 x ^^^ rotr 11 x ^^^ rotr 25 x

/-- SHA-256 σ₀. -/
def smallSigma0 (x : Nat) : Nat := rotr 7 x ^^^ rotr 18 x ^^^ (x >>> 3)

/-- SHA-256 σ₁. -/
def smallSigma1 (x : Nat) : Nat := rotr 17 x ^^^ rotr 19 x ^^^ (x >>> 10)

/-- Round-constant table of SHA-256 (FIPS 180-4 §4.2.2; fractional
parts of the cube roots of the first 64 primes), written in decimal. -/
def shaK : List Nat :=
  [1116352408, 1899447441, 3049323471, 3921009573, 961987163,
   1508970993, 2453635748, 2870763221, 3624381080, 310598401,
   607225278, 1426881987, 1925078388, 2162078206, 2614888103,
   3248222580, 3835390401, 4022224774, 264347078, 604807628,
   770255983, 1249150122, 1555081692, 1996064986, 2554220882,
   2821834349, 2952996808, 3210313671, 3336571891, 3584528711,
   113926993, 338241895, 666307205, 773529912, 1294757372,
   1396182291, 1695183700, 1986661051, 2177026350, 2456956037,
   2730485921, 2820302411, 3259730800, 3345764771, 3516065817,
   3600352804, 4094571909, 275423344, 430227734, 506948616,
   659060556, 883997877, 958139571, 1322822218, 1537002063,
   1747873779, 1955562222, 2024104815, 2227730452, 2361852424,
   2428436474, 2756734187, 3204031479, 3329325298]

/-- Initial chaining value of SHA-256 (FIPS 180-4 §5.3.3; fractional
parts of the square roots of the first 8 primes), in decimal. -/
def shaH0 : List Nat :=
  [1779033703, 3144134277, 1013904242, 2773480762,
   1359893119, 2600822924, 528734635, 1541459225]

/-- Big-endian byte expansion of a value into `k` octets. -/
def beBytes : Nat → Nat → List Nat
  | 0, _ => []
  | k + 1, v => beBytes k (v / 256) ++ [v % 256]

/-- FIPS 180-4 §5.1.1 message padding: append `0x80`, zero bytes up to
56 mod 64, then the bit length in 8 big-endian bytes. -/
def sha256Pad (msg : List Nat) : List Nat :=
  msg ++ [128] ++ List.replicate ((119 - msg.length % 64) % 64) 0
      ++ beBytes 8 (msg.length * 8)

/-- Group bytes into big-endian 32-bit words. -/
def bytesToWords : List Nat → List Nat
  | a :: b :: c :: d :: rest =>
      (((a * 256 + b) * 256 + c) * 256 + d) :: bytesToWords rest
  | _ => []

/-- Message-schedule extension: append the next word `n` times. -/
def schedule (w : List Nat) : Nat → List Nat
  | 0 => w
  | n + 1 =>
      schedule
        (w ++ [w32 (smallSigma1 (w.getD (w.length - 2) 0)
                  + w.getD (w.length - 7) 0
                  + smallSigma0 (w.getD (w.length - 15) 0)
                  + w.getD (w.length - 16) 0)]) n

/-- The 64 SHA-256 rounds: consume one constant and one schedule word
per step, updating the eight working variables. -/
def rounds : List Nat → List Nat → List Nat → List Nat
  | k :: ks, w :: ws, [a, b, c, d, e, f, g, h] =>
      rounds ks ws
        [w32 (w32 (h + bigSigma1 e + chFn e f g + k + w)
            + w32 (bigSigma0 a + majFn a b c)),
         a, b, c,
         w32 (d + w32 (h + bigSigma1 e + chFn e f g + k + w)),
         e, f, g]
  | _, _, s => s

/-- One SHA-256 compression: schedule expansion, 64 rounds, then add
the result into the chaining value. -/
def compress (h block : List Nat) : List Nat :=
  (h.zip (rounds shaK (schedule block 48) h)).map fun p => w32 (p.1 + p.2)

/-- Fold the compression function over consecutive 16-word blocks. -/
def sha256Blocks (h : List Nat) : List Nat → List Nat
  | w0 :: w1 :: w2 :: w3 :: w4 :: w5 :: w6 :: w7 ::
    w8 :: w9 :: w10 :: w11 :: w12 :: w13 :: w14 :: w15 :: rest =>
      sha256Blocks
        (compress h [w0, w1, w2, w3, w4, w5, w6, w7,
                     w8, w9, w10, w11, w12, w13, w14, w15]) rest
  | _ => h

/-- SHA-256 of a byte sequence, as 32 octets. -/
def sha256 (msg : List Nat) : List Nat :=
  ((sha256Blocks shaH0 (bytesToWords (sha256Pad msg))).map (beBytes 4)).flatten

/-- HMAC-SHA256 (RFC 2104) with a 64-byte block. -/
def hmacSha256 (key msg : List Nat) : List Nat :=
  sha256 (((if key.length > 64 then sha256 key else key)
            ++ List.replicate (64 - (if key.length > 64 then sha256 key else key).length) 0).map
              (fun b => b ^^^ 92)
    ++ sha256 (((if key.length > 64 then sha256 key else key)
            ++ List.replicate (64 - (if key.length > 64 then sha256 key else key).length) 0).map
              (fun b => b ^^^ 54)
    ++ msg))

/-- The standard Base64 alphabet, as ASCII codes. -/
def base64Alphabet : List Nat :=
  (List.range 26).map (· + 65) ++ (List.range 26).map (· + 97)
    ++ (List.range 10).map (· + 48) ++ [43, 47]

/-- Value of one Base64 digit. -/
def b64char (n : Nat) : Nat := base64Alphabet.getD n 0

/-- Base64 encoding of a byte sequence (ASCII codes, `=` padding). -/
def base64Bytes : List Nat → List Nat
  | [] => []
  | [a] => [b64char (a / 4), b64char (a % 4 * 16), 61, 61]
  | [a, b] => [b64char (a / 4), b64char (a % 4 * 16 + b / 16), b64char (b % 16 * 4), 61]
  | a :: b :: c :: rest =>
      b64char (a / 4) :: b64char (a % 4 * 16 + b / 16)
        :: b64char (b % 16 * 4 + c / 64) :: b64char (c % 64) :: base64Bytes rest

/-- ASCII bytes of a string (all literals used here are 7-bit, where
UTF-8 and ASCII agree, matching Node's `Buffer.from`). -/
def strBytes (s : String) : List Nat := s.data.map Char.toNat

/-- The digest the handler computes:
`crypto.createHmac('sha256', secret).update(rawBody).digest('base64')`. -/
def hmacBase64 (secret rawBody : List Nat) : List Nat :=
  base64Bytes (hmacSha256 secret rawBody)

/-!
## Signature verifier and ingestion endpoint

`verifyShopifyWebhook` embeds the Express middleware of the same name.
Observable behaviour is a trace of logger calls and HTTP responses plus
an outcome: either the request proceeds to the route handler (with
`req.shopifyPayload` set) or a JSON error response was sent.

Two platform primitives are parameters of the embedding rather than
repository code:
* `JSON.parse` appears as a `parse` argument (`none` models the
  exception it throws on a malformed body);
* `crypto.timingSafeEqual` is modelled by `timingSafeEqual` below —
  Node throws `ERR_CRYPTO_TIMING_SAFE_EQUAL_LENGTH` when the two
  buffers differ in byte length, which the middleware's `catch` turns
  into a 500 response.
-/

/-- Node's `crypto.timingSafeEqual`: `some` of the equality test when
the buffers have the same byte length, `none` for the exception thrown
when the lengths differ. -/
def timingSafeEqual (a b : List Nat) : Option Bool :=
  if a.length = b.length then some (a == b) else none

/-- Outcome of the `verifyShopifyWebhook` middleware: `proceed` when
`next()` runs with the parsed payload stored on the request, `reject`
when a JSON error response with the given status and error text was
sent instead. -/
inductive VerifyResult (P : Type) where
  | proceed (payload : P)
  | reject (status : Nat) (error : String)
deriving DecidableEq, Repr

/-- Observable actions of the HTTP layer: logger calls, HTTP responses
and the queue `add` call (tagged with whether the queue accepted it). -/
inductive Action where
  | log (level message : String)
  | respond (status : Nat)
  | enqueue (ok : Bool)
deriving DecidableEq, Repr

/-- The `verifyShopifyWebhook` middleware: falsy header → 401;
header/digest length mismatch → `timingSafeEqual` throws, caught → 500;
digest mismatch → 401; match → `JSON.parse(rawBody)` (500 via the catch
if it throws) and `next()`.  Returns the action trace and the outcome.

The `hmacHeader` argument is the header as the code's falsy check
`if (!hmacHeader)` sees it: `none` models an absent **or empty** header
value (both falsy in JavaScript, both answered 401 Missing HMAC
signature), and `some h` a present non-empty header value — so only
non-empty `h` lie in the image of the abstraction. -/
def verifyShopifyWebhook {P : Type} (parse : List Nat → Option P)
    (secret : List Nat) (hmacHeader : Option (List Nat)) (rawBody : List Nat) :
    List Action × VerifyResult P :=
  match hmacHeader with
  | none =>
      ([Action.log "warn" "Webhook received without HMAC header", Action.respond 401],
       VerifyResult.reject 401 "Missing HMAC signature")
  | some header =>
      match timingSafeEqual (hmacBase64 secret rawBody) header with
      | none =>
          ([Action.log "error" "Error verifying webhook", Action.respond 500],
           VerifyResult.reject 500 "Internal server error")
      | some false =>
          ([Action.log "error" "Invalid HMAC signature", Action.respond 401],
           VerifyResult.reject 401 "Invalid HMAC signature")
      | some true =>
          match parse rawBody with
          | none =>
              ([Action.log "error" "Error verifying webhook", Action.respond 500],
               VerifyResult.reject 500 "Internal server error")
          | some p =>
              ([Action.log "info" "HMAC signature verified successfully"],
               VerifyResult.proceed p)

/-- The `app.post('/webhooks/shopify/orders', ...)` route: after the
middleware, the handler's first statement builds the receipt-log object,
whose field `orderId: payload.id` is evaluated **before**
`res.status(200)` is reached.  `isNull p` says whether the parsed
payload is JSON null — the only `JSON.parse` result on which that
property access throws; in that case the route's catch only logs and no
response at all is sent.  Otherwise the handler logs receipt, responds
200 **before** awaiting `processWebhookAsync`, whose enqueue outcome is
the `enqueueOk` parameter; an enqueue failure is re-thrown into the
handler's catch, which only logs because the response was already
sent. -/
def webhookEndpoint {P : Type} (parse : List Nat → Option P) (isNull : P → Bool)
    (secret : List Nat) (hmacHeader : Option (List Nat)) (rawBody : List Nat)
    (enqueueOk : Bool) : List Action :=
  match verifyShopifyWebhook parse secret hmacHeader rawBody with
  | (tr, VerifyResult.reject _ _) => tr
  | (tr, VerifyResult.proceed p) =>
      if isNull p then
        tr ++ [Action.log "error" "Error processing webhook"]
      else
        tr ++ [Action.log "info" "Webhook received", Action.respond 200,
               Action.enqueue enqueueOk]
          ++ (if enqueueOk then
                [Action.log "info" "Job added to queue"]
              else
                [Action.log "error" "Error adding job to queue",
                 Action.log "error" "Error processing webhook"])

/-- HTTP statuses sent to the producer, in order. -/
def responsesOf : List Action → List Nat
  | [] => []
  | Action.respond s :: tr => s :: responsesOf tr
  | Action.log _ _ :: tr => responsesOf tr
  | Action.enqueue _ :: tr => responsesOf tr

/-- Queue `add` calls, in order, with their success flag. -/
def enqueuesOf : List Action → List Bool
  | [] => []
  | Action.enqueue ok :: tr => ok :: enqueuesOf tr
  | Action.log _ _ :: tr => enqueuesOf tr
  | Action.respond _ :: tr => enqueuesOf tr

/-!
## Queue processor, handlers and alerting

The processor registered by `orderProcessingQueue.process('process-order', ...)`
is repository code; the queue engine itself (`require('./queue-system')`)
is not in the sources, so the retry loop that drives repeated attempts
is modelled from the spec where needed (definitions marked
`Modelled from the spec`).
-/

/-- Config constant `MAX_RETRIES = 5`. -/
def MAX_RETRIES : Nat := 5

/-- Config constant `INITIAL_RETRY_DELAY = 1000` (one second). -/
def INITIAL_RETRY_DELAY : Nat := 1000

/-- Order payload fields the processor and alerting consult. -/
structure Payload where
  id : Int
deriving DecidableEq, Repr

/-- The data stored with a job by `processWebhookAsync`. -/
structure JobData where
  payload : Payload
  topic : String
  shopDomain : String
deriving DecidableEq, Repr

/-- A queue job as seen by the processor: queue-assigned id, data, and
the number of previously completed attempts (`job.attemptsMade`). -/
structure QueueJob where
  id : Nat
  data : JobData
  attemptsMade : Nat
deriving DecidableEq, Repr

/-- The four business handlers of the `switch (topic)` dispatch. -/
inductive Handler where
  | orderCreate
  | orderUpdate
  | orderPaid
  | orderFulfilled
deriving DecidableEq, Repr

/-- The `switch (topic)` of the processor: which handler a topic
selects; unrecognized topics select none (`default` branch). -/
def dispatchTopic (topic : String) : Option Handler :=
  if topic = "orders/create" then some Handler.orderCreate
  else if topic = "orders/updated" then some Handler.orderUpdate
  else if topic = "orders/paid" then some Handler.orderPaid
  else if topic = "orders/fulfilled" then some Handler.orderFulfilled
  else none

/-- The argument object of `sendFailureAlert`: exactly the fields the
processor passes (`orderId: payload.id`, `error`, `attempts`,
`shopDomain`). -/
structure AlertDetails where
  orderId : Int
  error : String
  attempts : Nat
  shopDomain : String
deriving DecidableEq, Repr

/-- What one processor invocation returns to the queue: the value
`{ success: true, orderId }` or the re-thrown error. -/
inductive ProcResult where
  | ok (orderId : Int)
  | thrown (error : String)
deriving DecidableEq, Repr

/-- Observables of one processor invocation. -/
structure AttemptOutcome where
  handlerInvoked : Option Handler
  unknownTopicWarned : Bool
  alerts : List AlertDetails
  result : ProcResult
deriving DecidableEq, Repr

/-- One invocation of the `process-order` processor.  `handlerOutcome`
is the outcome of the selected handler's downstream work (`none` =
returned, `some e` = threw `e`); the processor catches handler errors,
sends `sendFailureAlert` only when `attemptNumber >= MAX_RETRIES`, and
re-throws so the queue retries. -/
def processAttempt (job : QueueJob) (handlerOutcome : Option String) : AttemptOutcome :=
  match dispatchTopic job.data.topic with
  | none =>
      { handlerInvoked := none, unknownTopicWarned := true, alerts := [],
        result := ProcResult.ok job.data.payload.id }
  | some h =>
      match handlerOutcome with
      | none =>
          { handlerInvoked := some h, unknownTopicWarned := false, alerts := [],
            result := ProcResult.ok job.data.payload.id }
      | some e =>
          { handlerInvoked := some h, unknownTopicWarned := false,
            alerts :=
              if MAX_RETRIES ≤ job.attemptsMade + 1 then
                [{ orderId := job.data.payload.id, error := e,
                   attempts := job.attemptsMade + 1, shopDomain := job.data.shopDomain }]
              else [],
            result := ProcResult.thrown e }

/-- Aggregate of a whole job life under the queue's retry policy. -/
structure RunOutcome where
  alerts : List AlertDetails
  attemptsUsed : Nat
  succeeded : Bool
deriving DecidableEq, Repr

/-- Modelled from the spec: the queue engine (`require('./queue-system')`)
is not among the repository sources, so its retry loop is taken from
spec §4.4 — after a thrown attempt with `attemptCount < maxAttempts`
the job is re-run, otherwise it is exhausted; a returned attempt is
terminal success.  `handlerErr k` is the downstream outcome of the
attempt with `attemptsMade = k`. -/
def runJob (d : JobData) (jobId : Nat) (handlerErr : Nat → Option String) :
    Nat → Nat → RunOutcome
  | 0, _ => { alerts := [], attemptsUsed := 0, succeeded := false }
  | fuel + 1, attemptsMade =>
      let a := processAttempt { id := jobId, data := d, attemptsMade := attemptsMade }
                 (handlerErr attemptsMade)
      match a.result with
      | ProcResult.ok _ => { alerts := a.alerts, attemptsUsed := 1, succeeded := true }
      | ProcResult.thrown _ =>
          if attemptsMade + 1 < MAX_RETRIES then
            let rest := runJob d jobId handlerErr fuel (attemptsMade + 1)
            { alerts := a.alerts ++ rest.alerts,
              attemptsUsed := rest.attemptsUsed + 1,
              succeeded := rest.succeeded }
          else { alerts := a.alerts, attemptsUsed := 1, succeeded := false }

/-!
## Retry scheduler timing (spec-modelled)

The exponential backoff configured in `processWebhookAsync`
(`attempts: MAX_RETRIES, backoff: { type: 'exponential', delay:
INITIAL_RETRY_DELAY }`) is executed by the absent queue engine; its
timing semantics are modelled from spec §4.4.
-/

/-- Job states of spec §3. -/
inductive JobState where
  | pending
  | running
  | succeeded
  | failed
  | exhausted
deriving DecidableEq, Repr

/-- Job record fields relevant to retry timing (spec §3). -/
structure QJob where
  state : JobState
  attemptCount : Nat
  nextEligibleAt : Nat
deriving DecidableEq, Repr

/-- Modelled from the spec: §4.4 `markFailed` semantics — with
`attemptCount < maxAttempts` re-arm as Pending at
`now + initialDelay * 2 ^ (attemptCount - 1)`, otherwise Exhausted. -/
def markFailedSpec (maxAttempts initialDelay now : Nat) (j : QJob) : QJob :=
  if j.attemptCount < maxAttempts then
    { j with state := JobState.pending,
             nextEligibleAt := now + initialDelay * 2 ^ (j.attemptCount - 1) }
  else { j with state := JobState.exhausted }

/-- Modelled from the spec: a worker loop in which every attempt fails,
each attempt running exactly when the job becomes eligible
(`now = nextEligibleAt`); `attemptCount` is incremented before each
execution (spec §3).  Returns the successive `nextEligibleAt` deltas
and the final job record. -/
def failingRun (maxAttempts initialDelay : Nat) : Nat → QJob → List Nat × QJob
  | 0, j => ([], j)
  | fuel + 1, j =>
      if j.state = JobState.pending then
        let j2 := markFailedSpec maxAttempts initialDelay j.nextEligibleAt
                    { j with state := JobState.running,
                             attemptCount := j.attemptCount + 1 }
        if j2.state = JobState.pending then
          let rest := failingRun maxAttempts initialDelay fuel j2
          ((j2.nextEligibleAt - j.nextEligibleAt) :: rest.1, rest.2)
        else ([], j2)
      else ([], j)

/-!
## Nested retry loop of `syncOrderToInternalSystem`

The `orders/create` handler syncs to the internal system through its
own bounded retry loop, independent of the queue-level policy.  The
simulated internal call is commented out in the source, so its outcome
per iteration is the `attemptOutcome` parameter (`none` = success,
`some e` = the iteration threw `e`).
-/

/-- `const maxRetries = 3` inside `syncOrderToInternalSystem`. -/
def syncMaxRetries : Nat := 3

/-- Result of a sync run: `ok true` (the function returns `true`) or
the error thrown after the final failed iteration. -/
inductive SyncResult where
  | ok (b : Bool)
  | thrown (msg : String)
deriving DecidableEq, Repr

/-- Observables of one sync run: iterations executed, the sleeps
(`Math.pow(2, i) * 1000` ms) between consecutive iterations, and the
result. -/
structure SyncTrace where
  attempts : Nat
  sleeps : List Nat
  result : SyncResult
deriving DecidableEq, Repr

/-- The `for (let i = 0; i < maxRetries; i++)` loop body of
`syncOrderToInternalSystem`: success returns `true`; a failure with
`i < maxRetries - 1` sleeps `2 ^ i * 1000` ms and continues; after the
last failure the loop exits and throws with the last error's message. -/
def syncLoop (attemptOutcome : Nat → Option String) : Nat → Nat → SyncTrace
  | _, 0 => { attempts := 0, sleeps := [], result := SyncResult.thrown "" }
  | i, fuel + 1 =>
      match attemptOutcome i with
      | none => { attempts := 1, sleeps := [], result := SyncResult.ok true }
      | some e =>
          if i < syncMaxRetries - 1 then
            let rest := syncLoop attemptOutcome (i + 1) fuel
            { attempts := rest.attempts + 1,
              sleeps := 2 ^ i * 1000 :: rest.sleeps,
              result := rest.result }
          else
            { attempts := 1, sleeps := [],
              result := SyncResult.thrown
                ("Failed to sync after 3 attempts: " ++ e) }

/-- `syncOrderToInternalSystem`, starting the loop at `i = 0`. -/
def syncOrderToInternalSystem (attemptOutcome : Nat → Option String) : SyncTrace :=
  syncLoop attemptOutcome 0 syncMaxRetries

/-!
## Paginated list consumer (`ProductList.jsx`)

The React component fetches
`{baseUrl}?limit=12&skip=(page-1)*12` and consumes
`data.products || []` and `Number(data.total || 0)`, deriving
`totalPages = Math.max(1, Math.ceil(total / 12))`.
-/

/-- `const itemsPerPage = 12` (fixed). -/
def itemsPerPage : Nat := 12

/-- `const skip = (currentPage - 1) * itemsPerPage`. -/
def skipFor (currentPage : Nat) : Nat := (currentPage - 1) * itemsPerPage

/-- The query string built by `new URLSearchParams({limit, skip})`. -/
def queryParams (currentPage : Nat) : String :=
  "limit=" ++ toString itemsPerPage ++ "&skip=" ++ toString (skipFor currentPage)

/-- The fetched URL: search endpoint when a search term is active,
plain collection URL otherwise, with the pagination query appended.
(The search term is taken as already URL-safe; `encodeURIComponent`
is the identity on such terms.) -/
def requestUrl (apiUrl debouncedSearch : String) (currentPage : Nat) : String :=
  (if debouncedSearch ≠ "" then apiUrl ++ "/search?q=" ++ debouncedSearch else apiUrl)
    ++ "?" ++ queryParams currentPage

/-- A list entry of the REST response. -/
structure Product where
  id : Nat
deriving DecidableEq, Repr

/-- A JSON response object: array-valued keys plus the numeric `total`
key (absent keys read as `undefined`). -/
structure ApiResponse where
  arrays : List (String × List Product)
  total : Option Nat
deriving DecidableEq, Repr

/-- Property access `data.<key>` for an array-valued key. -/
def getArray (r : ApiResponse) (key : String) : Option (List Product) :=
  (r.arrays.find? fun p => p.1 == key).map fun p => p.2

/-- What the component keeps from a response:
`data.products || []` and `Math.max(1, Math.ceil(Number(data.total || 0) / 12))`. -/
def consumeResponse (r : ApiResponse) : List Product × Nat :=
  ((getArray r "products").getD [],
   max 1 ((r.total.getD 0 + itemsPerPage - 1) / itemsPerPage))

/-!
## Theorems

One theorem per claim in `CLAIMS.json`, with shared helper lemmas.
-/

/-- Claim C10: the internal-sync step of the orders/create handler has
its own nested retry loop, independent of the queue-level policy: at
most 3 attempts, sleeps of 2^i*1000 ms (1 s, then 2 s) between
consecutive attempts, returns true on the first success, and after the
3rd consecutive failure throws an error carrying the last failure's
message. -/
theorem claim_C10 (ao : Nat → Option String) (e0 e1 e2 : String) :
    (syncOrderToInternalSystem ao).attempts ≤ 3
    ∧ (ao 0 = none →
        syncOrderToInternalSystem ao = ⟨1, [], SyncResult.ok true⟩)
    ∧ (ao 0 = some e0 → ao 1 = none →
        syncOrderToInternalSystem ao = ⟨2, [1000], SyncResult.ok true⟩)
    ∧ (ao 0 = some e0 → ao 1 = some e1 → ao 2 = none →
        syncOrderToInternalSystem ao = ⟨3, [1000, 2000], SyncResult.ok true⟩)
    ∧ (ao 0 = some e0 → ao 1 = some e1 → ao 2 = some e2 →
        syncOrderToInternalSystem ao =
          ⟨3, [1000, 2000],
           SyncResult.thrown ("Failed to sync after 3 attempts: " ++ e2)⟩) := by
  refine ⟨?_, ?_, ?_, ?_, ?_⟩
  · rcases h0 : ao 0 with _ | x0 <;>
      rcases h1 : ao 1 with _ | x1 <;>
        rcases h2 : ao 2 with _ | x2 <;>
          simp [syncOrderToInternalSystem, syncLoop, syncMaxRetries, h0, h1, h2]
  · intro h0
    simp [syncOrderToInternalSystem, syncLoop, syncMaxRetries, h0]
  · intro h0 h1
    simp [syncOrderToInternalSystem, syncLoop, syncMaxRetries, h0, h1]
  · intro h0 h1 h2
    simp [syncOrderToInternalSystem, syncLoop, syncMaxRetries, h0, h1, h2]
  · intro h0 h1 h2
    simp [syncOrderToInternalSystem, syncLoop, syncMaxRetries, h0, h1, h2]

/-- Witness for C10 at the all-failing oracle: three attempts, sleeps
of 1 s and 2 s, and the thrown message carries the last error. -/
theorem claim_C10_witness :
    syncOrderToInternalSystem (fun _ => some "netdown") =
      ⟨3, [1000, 2000], SyncResult.thrown "Failed to sync after 3 attempts: netdown"⟩ :=
  (claim_C10 (fun _ => some "netdown") "netdown" "netdown" "netdown").2.2.2.2 rfl rfl rfl

/-- Claim C4 counterexample: under the default configuration the
always-failing job produces exactly four re-eligibility deltas
(1 s, 2 s, 4 s, 8 s) — not the five (…, 16 s) the claim lists — because
the 5th failed attempt exhausts the job instead of re-arming it. -/
theorem claim_C4_cex :
    (failingRun 5 1000 10 ⟨JobState.pending, 0, 0⟩).1 ≠ [1000, 2000, 4000, 8000, 16000]
    ∧ failingRun 5 1000 10 ⟨JobState.pending, 0, 0⟩ =
        ([1000, 2000, 4000, 8000], ⟨JobState.exhausted, 5, 15000⟩) := by
  constructor <;> decide

/-- Claim C4 (amended): for an always-failing job under the default
configuration (maxAttempts = 5, initialDelay = 1000 ms) the successive
re-eligibility deltas are 1 s, 2 s, 4 s, 8 s — each delay before
attempt n+1 being initialDelay * 2^(n-1) — the job is Exhausted with
attemptCount 5 after the 5th failed attempt, and an exhausted job is
never run again. -/
theorem claim_C4 (t0 : Nat) :
    failingRun MAX_RETRIES INITIAL_RETRY_DELAY 10 ⟨JobState.pending, 0, t0⟩ =
      ([1000, 2000, 4000, 8000], ⟨JobState.exhausted, 5, t0 + 15000⟩)
    ∧ (∀ iD now j, j.attemptCount < MAX_RETRIES →
        (markFailedSpec MAX_RETRIES iD now j).nextEligibleAt =
          now + iD * 2 ^ (j.attemptCount - 1))
    ∧ (∀ mA iD fuel j, j.state = JobState.exhausted →
        failingRun mA iD fuel j = ([], j)) := by
  refine ⟨?_, ?_, ?_⟩
  · simp [failingRun, markFailedSpec, MAX_RETRIES, INITIAL_RETRY_DELAY]
  · intro iD now j hj
    simp [markFailedSpec, hj]
  · intro mA iD fuel j hj
    cases fuel with
    | zero => rfl
    | succ n => simp [failingRun, hj]

/-- Witness for C4 at a concrete start time, plus the terminal clause
at a concrete exhausted job. -/
theorem claim_C4_witness :
    failingRun MAX_RETRIES INITIAL_RETRY_DELAY 10 ⟨JobState.pending, 0, 500⟩ =
      ([1000, 2000, 4000, 8000], ⟨JobState.exhausted, 5, 15500⟩)
    ∧ failingRun 5 1000 3 ⟨JobState.exhausted, 5, 15500⟩ =
        ([], ⟨JobState.exhausted, 5, 15500⟩) :=
  ⟨(claim_C4 500).1, (claim_C4 500).2.2 5 1000 3 ⟨JobState.exhausted, 5, 15500⟩ rfl⟩

/-- Claim C5 counterexample: the single exhaustion notification does
not carry the queue's job id — it carries the order id taken from the
payload.  With job id 7 and order payload id 42, the alert is exactly
⟨42, "boom", 5, "shop.example"⟩, and 42 is not the job id. -/
theorem claim_C5_cex :
    (runJob ⟨⟨42⟩, "orders/create", "shop.example"⟩ 7 (fun _ => some "boom") 5 0).alerts =
      [⟨42, "boom", 5, "shop.example"⟩]
    ∧ (42 : Int) ≠ (7 : Int) := by
  constructor <;> decide

/-- Claim C5 (amended): a job whose handler fails on every attempt
triggers exactly one Alerting Sink notification, upon the 5th failed
attempt, carrying the order id from the payload (not the job id), the
last error, the shop domain, and attempts = 5; no attempt with
remaining retries ever alerts. -/
theorem claim_C5 (d : JobData) (jobId : Nat) (handlerErr : Nat → Option String)
    (es : Nat → String) (h : Handler)
    (hdisp : dispatchTopic d.topic = some h)
    (herr : ∀ k, k < MAX_RETRIES → handlerErr k = some (es k)) :
    (runJob d jobId handlerErr MAX_RETRIES 0).alerts =
      [⟨d.payload.id, es 4, 5, d.shopDomain⟩]
    ∧ (∀ job o, job.attemptsMade + 1 < MAX_RETRIES →
        (processAttempt job o).alerts = []) := by
  constructor
  · have h0 := herr 0 (by decide)
    have h1 := herr 1 (by decide)
    have h2 := herr 2 (by decide)
    have h3 := herr 3 (by decide)
    have h4 := herr 4 (by decide)
    simp [runJob, processAttempt, hdisp, h0, h1, h2, h3, h4, MAX_RETRIES]
  · intro job o hlt
    rcases hd : dispatchTopic job.data.topic with _ | hh
    · simp [processAttempt, hd]
    · rcases o with _ | e
      · simp [processAttempt, hd]
      · simp [processAttempt, hd]
        omega

/-- Witness for C5: a concrete always-failing orders/create job. -/
theorem claim_C5_witness :
    dispatchTopic "orders/create" = some Handler.orderCreate
    ∧ (runJob ⟨⟨9⟩, "orders/create", "shop.a"⟩ 3 (fun _ => some "down") 5 0).alerts =
        [⟨9, "down", 5, "shop.a"⟩] :=
  ⟨rfl,
   (claim_C5 ⟨⟨9⟩, "orders/create", "shop.a"⟩ 3 (fun _ => some "down") (fun _ => "down")
      Handler.orderCreate rfl (fun _ _ => rfl)).1⟩

/-- Claim C7: a job with an unrecognized topic invokes no business
handler, logs the unknown-topic warning, returns a success outcome
(not a failure), and is therefore never retried: the whole job run
uses one attempt and ends successfully. -/
theorem claim_C7 (job : QueueJob) (o : Option String)
    (d : JobData) (jobId : Nat) (herr2 : Nat → Option String) (fuel : Nat)
    (hj : dispatchTopic job.data.topic = none)
    (hd : dispatchTopic d.topic = none) :
    (processAttempt job o).handlerInvoked = none
    ∧ (processAttempt job o).unknownTopicWarned = true
    ∧ (processAttempt job o).result = ProcResult.ok job.data.payload.id
    ∧ (processAttempt job o).alerts = []
    ∧ (runJob d jobId herr2 (fuel + 1) 0).attemptsUsed = 1
    ∧ (runJob d jobId herr2 (fuel + 1) 0).succeeded = true := by
  refine ⟨?_, ?_, ?_, ?_, ?_, ?_⟩ <;>
    simp [processAttempt, runJob, hj, hd]

/-- Witness for C7 at the unrecognized topic orders/deleted. -/
theorem claim_C7_witness :
    (processAttempt ⟨1, ⟨⟨5⟩, "orders/deleted", "s.example"⟩, 0⟩ (some "x")).handlerInvoked = none
    ∧ (processAttempt ⟨1, ⟨⟨5⟩, "orders/deleted", "s.example"⟩, 0⟩ (some "x")).unknownTopicWarned = true
    ∧ (processAttempt ⟨1, ⟨⟨5⟩, "orders/deleted", "s.example"⟩, 0⟩ (some "x")).result = ProcResult.ok 5
    ∧ (processAttempt ⟨1, ⟨⟨5⟩, "orders/deleted", "s.example"⟩, 0⟩ (some "x")).alerts = []
    ∧ (runJob ⟨⟨5⟩, "orders/deleted", "s.example"⟩ 1 (fun _ => some "x") 5 0).attemptsUsed = 1
    ∧ (runJob ⟨⟨5⟩, "orders/deleted", "s.example"⟩ 1 (fun _ => some "x") 5 0).succeeded = true :=
  claim_C7 ⟨1, ⟨⟨5⟩, "orders/deleted", "s.example"⟩, 0⟩ (some "x")
    ⟨⟨5⟩, "orders/deleted", "s.example"⟩ 1 (fun _ => some "x") 4 (by decide) (by decide)

/-- Claim C9 counterexample: the consumer reads the products key, so a
response of the shape the claim names — an items array plus total —
contributes nothing to the displayed list. -/
theorem claim_C9_cex :
    consumeResponse ⟨[("items", [⟨1⟩])], some 1⟩ = ([], 1)
    ∧ ([] : List Product) ≠ [⟨1⟩] := by
  constructor <;> decide

/-- Claim C9 (amended): each page load issues a GET whose query caries
limit = 12 and skip = (page-1)*12, and consumes a response of shape
products-array plus total, deriving the page count as
max 1 (ceil(total / 12)). -/
theorem claim_C9 (apiUrl : String) (page : Nat) (ps : List Product) (total : Nat) :
    requestUrl apiUrl "" page =
      apiUrl ++ "?" ++ ("limit=12&skip=" ++ toString ((page - 1) * 12))
    ∧ consumeResponse ⟨[("products", ps)], some total⟩ =
        (ps, max 1 ((total + 11) / 12)) := by
  constructor
  · rfl
  · simp [consumeResponse, getArray, itemsPerPage]

/-- Characterization of the timing-safe comparison: true exactly on
equal buffers. -/
theorem tse_eq_some_true_iff (a b : List Nat) :
    timingSafeEqual a b = some true ↔ a = b := by
  unfold timingSafeEqual
  by_cases h : a.length = b.length
  · simp [h]
  · simp [h]
    rintro rfl
    exact h rfl

/-- The comparison throws exactly on buffers of different lengths. -/
theorem tse_eq_none_iff (a b : List Nat) :
    timingSafeEqual a b = none ↔ a.length ≠ b.length := by
  unfold timingSafeEqual
  by_cases h : a.length = b.length <;> simp [h]

/-- The comparison returns false exactly on equal-length distinct
buffers. -/
theorem tse_eq_some_false_iff (a b : List Nat) :
    timingSafeEqual a b = some false ↔ a.length = b.length ∧ a ≠ b := by
  unfold timingSafeEqual
  by_cases h : a.length = b.length <;> simp [h]

/-- A buffer always compares equal to itself. -/
theorem tse_self (a : List Nat) : timingSafeEqual a a = some true := by
  simp [timingSafeEqual]

/-- Middleware behaviour when the header is the correct digest and the
body parses. -/
theorem verify_valid {P : Type} (parse : List Nat → Option P) (secret body : List Nat)
    (p : P) (hp : parse body = some p) :
    verifyShopifyWebhook parse secret (some (hmacBase64 secret body)) body =
      ([Action.log "info" "HMAC signature verified successfully"],
       VerifyResult.proceed p) := by
  simp [verifyShopifyWebhook, tse_self, hp]

/-- Middleware behaviour when the header is the correct digest but the
body does not parse: the catch block answers 500. -/
theorem verify_parsefail {P : Type} (parse : List Nat → Option P) (secret body : List Nat)
    (hp : parse body = none) :
    verifyShopifyWebhook parse secret (some (hmacBase64 secret body)) body =
      ([Action.log "error" "Error verifying webhook", Action.respond 500],
       VerifyResult.reject 500 "Internal server error") := by
  simp [verifyShopifyWebhook, tse_self, hp]

/-- Middleware behaviour on an equal-length header that is not the
digest: 401 Invalid HMAC signature. -/
theorem verify_mismatch {P : Type} (parse : List Nat → Option P) (secret body header : List Nat)
    (hlen : header.length = (hmacBase64 secret body).length)
    (hne : header ≠ hmacBase64 secret body) :
    verifyShopifyWebhook parse secret (some header) body =
      ([Action.log "error" "Invalid HMAC signature", Action.respond 401],
       VerifyResult.reject 401 "Invalid HMAC signature") := by
  have hts : timingSafeEqual (hmacBase64 secret body) header = some false :=
    (tse_eq_some_false_iff _ _).mpr ⟨hlen.symm, fun hh => hne hh.symm⟩
  simp [verifyShopifyWebhook, hts]

/-- Middleware behaviour on a header whose length differs from the
digest's: the comparison throws and the catch block answers 500. -/
theorem verify_badlen {P : Type} (parse : List Nat → Option P) (secret body header : List Nat)
    (hlen : header.length ≠ (hmacBase64 secret body).length) :
    verifyShopifyWebhook parse secret (some header) body =
      ([Action.log "error" "Error verifying webhook", Action.respond 500],
       VerifyResult.reject 500 "Internal server error") := by
  have hts : timingSafeEqual (hmacBase64 secret body) header = none :=
    (tse_eq_none_iff _ _).mpr (fun hh => hlen hh.symm)
  simp [verifyShopifyWebhook, hts]

/-- The middleware proceeds exactly when the header is the digest and
the body parses. -/
theorem verify_proceed_iff {P : Type} (parse : List Nat → Option P)
    (secret body header : List Nat) (p : P) :
    (verifyShopifyWebhook parse secret (some header) body).2 = VerifyResult.proceed p ↔
      header = hmacBase64 secret body ∧ parse body = some p := by
  constructor
  · intro hv
    by_cases hlen : header.length = (hmacBase64 secret body).length
    · by_cases heq : header = hmacBase64 secret body
      · subst heq
        rcases hq : parse body with _ | q
        · rw [verify_parsefail parse secret body hq] at hv
          simp at hv
        · rw [verify_valid parse secret body q hq] at hv
          simp at hv
          exact ⟨rfl, by rw [hv]⟩
      · rw [verify_mismatch parse secret body header hlen heq] at hv
        simp at hv
    · rw [verify_badlen parse secret body header hlen] at hv
      simp at hv
  · rintro ⟨rfl, hp⟩
    rw [verify_valid parse secret body p hp]

/-- Whenever the middleware proceeds, its whole observable pair is the
single success log plus the proceed outcome. -/
theorem verify_pair_of_proceed {P : Type} (parse : List Nat → Option P) (secret : List Nat)
    (hmacHeader : Option (List Nat)) (body : List Nat) (p : P)
    (hv : (verifyShopifyWebhook parse secret hmacHeader body).2 = VerifyResult.proceed p) :
    verifyShopifyWebhook parse secret hmacHeader body =
      ([Action.log "info" "HMAC signature verified successfully"],
       VerifyResult.proceed p) := by
  rcases hmacHeader with _ | header
  · simp [verifyShopifyWebhook] at hv
  · have hiff := (verify_proceed_iff parse secret body header p).mp hv
    rcases hiff with ⟨rfl, hp⟩
    rw [verify_valid parse secret body p hp]

/-- When the middleware rejects, the endpoint's whole trace is the
middleware's trace: the route handler never runs. -/
theorem endpoint_of_reject {P : Type} {parse : List Nat → Option P} {isNull : P → Bool}
    {secret : List Nat} {hmacHeader : Option (List Nat)} {body : List Nat} {e : Bool}
    {tr : List Action} {s : Nat} {msg : String}
    (hr : verifyShopifyWebhook parse secret hmacHeader body =
      (tr, VerifyResult.reject s msg)) :
    webhookEndpoint parse isNull secret hmacHeader body e = tr := by
  unfold webhookEndpoint
  rw [hr]

/-- When the middleware proceeds with a non-null payload, the endpoint's
trace is the middleware's trace, then the receipt log, the 200 response,
the enqueue call, and the enqueue-outcome logging. -/
theorem endpoint_of_proceed {P : Type} {parse : List Nat → Option P} {isNull : P → Bool}
    {secret : List Nat} {hmacHeader : Option (List Nat)} {body : List Nat} {e : Bool}
    {tr : List Action} {p : P}
    (hr : verifyShopifyWebhook parse secret hmacHeader body =
      (tr, VerifyResult.proceed p))
    (hn : isNull p = false) :
    webhookEndpoint parse isNull secret hmacHeader body e =
      tr ++ [Action.log "info" "Webhook received", Action.respond 200, Action.enqueue e]
        ++ (if e then [Action.log "info" "Job added to queue"]
            else [Action.log "error" "Error adding job to queue",
                  Action.log "error" "Error processing webhook"]) := by
  unfold webhookEndpoint
  rw [hr]
  simp [hn]

/-- When the middleware proceeds with a JSON-null payload, the handler
throws at its first property access: the catch logs and the endpoint
sends no response at all. -/
theorem endpoint_of_proceed_null {P : Type} {parse : List Nat → Option P}
    {isNull : P → Bool} {secret : List Nat} {hmacHeader : Option (List Nat)}
    {body : List Nat} {e : Bool} {tr : List Action} {p : P}
    (hr : verifyShopifyWebhook parse secret hmacHeader body =
      (tr, VerifyResult.proceed p))
    (hn : isNull p = true) :
    webhookEndpoint parse isNull secret hmacHeader body e =
      tr ++ [Action.log "error" "Error processing webhook"] := by
  unfold webhookEndpoint
  rw [hr]
  simp [hn]

/-- Setting position i of a list to a value it does not hold there
yields a different list. -/
theorem set_ne_self (l : List Nat) (i b : Nat) (hi : i < l.length)
    (hb : l.get? i ≠ some b) : l.set i b ≠ l := by
  intro he
  apply hb
  have hs : (l.set i b)[i]? = some b := List.getElem?_set_eq_of_lt b hi
  rw [he] at hs
  rw [List.get?_eq_getElem?]
  exact hs

set_option maxRecDepth 100000 in
set_option maxHeartbeats 2000000 in
/-- Claim C1 counterexample: with the byte string x — on which
JSON.parse throws, so the parse oracle returns none — a request whose
header is exactly Base64(HMAC-SHA256(secret, rawBody)) still does not
proceed to the handler: the middleware answers 500 from its catch
block.  The claimed equivalence therefore fails left-to-right. -/
theorem claim_C1_cex :
    (verifyShopifyWebhook (fun _ => (none : Option Unit)) [115, 107]
        (some (hmacBase64 [115, 107] [120])) [120]).2 =
      VerifyResult.reject 500 "Internal server error" := by
  decide

/-- Claim C1 (amended): verification succeeds — the request proceeds
to the handler — iff the signature header equals
Base64(HMAC-SHA256(secret, rawBody)) and the raw body parses; mutating
any single byte of a correct header makes verification fail, and
mutating any single byte of rawBody makes verification fail whenever
the mutated body's digest differs from the original's (which
HMAC-SHA256 collision-resistance provides in practice). -/
theorem claim_C1 {P : Type} (parse : List Nat → Option P) (secret body header : List Nat) :
    ((∃ p, (verifyShopifyWebhook parse secret (some header) body).2 = VerifyResult.proceed p) ↔
      header = hmacBase64 secret body ∧ (parse body).isSome = true)
    ∧ (∀ i b, i < header.length → header.get? i ≠ some b →
        header = hmacBase64 secret body →
        ∀ p : P, (verifyShopifyWebhook parse secret (some (header.set i b)) body).2 ≠
          VerifyResult.proceed p)
    ∧ (∀ i b, i < body.length → body.get? i ≠ some b →
        header = hmacBase64 secret body →
        hmacBase64 secret (body.set i b) ≠ hmacBase64 secret body →
        ∀ p : P, (verifyShopifyWebhook parse secret (some header) (body.set i b)).2 ≠
          VerifyResult.proceed p) := by
  refine ⟨?_, ?_, ?_⟩
  · constructor
    · rintro ⟨p, hp⟩
      have hiff := (verify_proceed_iff parse secret body header p).mp hp
      exact ⟨hiff.1, by rw [hiff.2]; rfl⟩
    · rintro ⟨rfl, hs⟩
      rcases hq : parse body with _ | q
      · rw [hq] at hs
        simp at hs
      · exact ⟨q, (verify_proceed_iff parse secret body _ q).mpr ⟨rfl, hq⟩⟩
  · intro i b hi hb hhdr p hv
    have hne : header.set i b ≠ hmacBase64 secret body := by
      rw [← hhdr]
      exact set_ne_self header i b hi hb
    exact hne ((verify_proceed_iff parse secret body (header.set i b) p).mp hv).1
  · intro i b hi hb hhdr hdne p hv
    have hdg := ((verify_proceed_iff parse secret (body.set i b) header p).mp hv).1
    exact hdne (by rw [← hdg, hhdr])

set_option maxRecDepth 100000 in
set_option maxHeartbeats 2000000 in
/-- Witness for C1: a concrete one-byte body mutation changes the
digest, and verification of the mutated body against the original
(correct) header fails. -/
theorem claim_C1_witness :
    hmacBase64 [115, 107] ([104, 105].set 0 106) ≠ hmacBase64 [115, 107] [104, 105]
    ∧ (verifyShopifyWebhook (fun _ => some ()) [115, 107]
        (some (hmacBase64 [115, 107] [104, 105])) ([104, 105].set 0 106)).2 ≠
        VerifyResult.proceed () :=
  ⟨by decide,
   (claim_C1 (fun _ => some ()) [115, 107] [104, 105]
      (hmacBase64 [115, 107] [104, 105])).2.2 0 106 (by decide) (by decide) rfl (by decide) ()⟩

set_option maxRecDepth 100000 in
set_option maxHeartbeats 2000000 in
/-- Claim C3 counterexample: the three failure causes do not share one
authentication-failure status — a malformed (wrong-length) header is
answered 500 by the catch block, while a missing header is answered
401. -/
theorem claim_C3_cex :
    (verifyShopifyWebhook (fun _ => some ()) [107, 49] (some [97, 98, 99]) [104]).2 =
      VerifyResult.reject 500 "Internal server error"
    ∧ (verifyShopifyWebhook (fun _ => (some ())) [107, 49] none [104]).2 =
      VerifyResult.reject 401 "Missing HMAC signature"
    ∧ (500 : Nat) ≠ 401 := by
  refine ⟨by decide, rfl, by decide⟩

/-- Claim C3 (amended): verification never throws — each failure cause
yields a failure response — but the causes are not all alike: a missing
header and an equal-length digest mismatch are both answered 401, while
a header whose byte length differs from the 44-byte digest makes
timingSafeEqual throw, which the catch block converts into a 500. -/
theorem claim_C3 {P : Type} (parse : List Nat → Option P) (secret body header : List Nat) :
    (verifyShopifyWebhook parse secret none body).2 =
      VerifyResult.reject 401 "Missing HMAC signature"
    ∧ (header.length = (hmacBase64 secret body).length →
        header ≠ hmacBase64 secret body →
        (verifyShopifyWebhook parse secret (some header) body).2 =
          VerifyResult.reject 401 "Invalid HMAC signature")
    ∧ (header.length ≠ (hmacBase64 secret body).length →
        (verifyShopifyWebhook parse secret (some header) body).2 =
          VerifyResult.reject 500 "Internal server error") := by
  refine ⟨rfl, ?_, ?_⟩
  · intro h1 h2
    rw [verify_mismatch parse secret body header h1 h2]
  · intro h1
    rw [verify_badlen parse secret body header h1]

set_option maxRecDepth 100000 in
set_option maxHeartbeats 2000000 in
/-- Witness for C3: a same-length corrupted header (first digest byte
replaced) is rejected 401 Invalid HMAC signature. -/
theorem claim_C3_witness :
    ((hmacBase64 [107, 49] [104]).set 0 33).length = (hmacBase64 [107, 49] [104]).length
    ∧ (verifyShopifyWebhook (fun _ => some ()) [107, 49]
        (some ((hmacBase64 [107, 49] [104]).set 0 33)) [104]).2 =
        VerifyResult.reject 401 "Invalid HMAC signature" :=
  ⟨by simp,
   (claim_C3 (fun _ => some ()) [107, 49] [104]
      ((hmacBase64 [107, 49] [104]).set 0 33)).2.1 (by simp) (by decide)⟩

set_option maxRecDepth 100000 in
set_option maxHeartbeats 2000000 in
/-- Claim C2 counterexample: on a verified request whose enqueue fails
(queue unavailable), the producer still receives only the 200 success
acknowledgment — the failed enqueue is visible in the trace but no
error status is sent. -/
theorem claim_C2_cex :
    responsesOf (webhookEndpoint (fun _ => some ()) (fun _ => false) [115, 49]
        (some (hmacBase64 [115, 49] [123, 125])) [123, 125] false) = [200]
    ∧ enqueuesOf (webhookEndpoint (fun _ => some ()) (fun _ => false) [115, 49]
        (some (hmacBase64 [115, 49] [123, 125])) [123, 125] false) = [false] := by
  constructor <;> decide

/-- Claim C2 (amended): for a verified request whose parsed payload is
not JSON null, the endpoint acknowledges 200 before the enqueue call;
when the enqueue fails, the error is only logged — the producer
receives the success acknowledgment even though no job was queued, and
no error status is ever sent for such a request.  (A verified JSON-null
payload instead makes the handler throw before responding: no response
at all.) -/
theorem claim_C2 {P : Type} (parse : List Nat → Option P) (isNull : P → Bool)
    (secret body : List Nat) (p : P)
    (hp : parse body = some p) (hnull : isNull p = false) :
    webhookEndpoint parse isNull secret (some (hmacBase64 secret body)) body false =
      [Action.log "info" "HMAC signature verified successfully",
       Action.log "info" "Webhook received", Action.respond 200, Action.enqueue false,
       Action.log "error" "Error adding job to queue",
       Action.log "error" "Error processing webhook"]
    ∧ responsesOf (webhookEndpoint parse isNull secret
        (some (hmacBase64 secret body)) body false) = [200] := by
  have hv := verify_valid parse secret body p hp
  have h1 : webhookEndpoint parse isNull secret (some (hmacBase64 secret body)) body false =
      [Action.log "info" "HMAC signature verified successfully",
       Action.log "info" "Webhook received", Action.respond 200, Action.enqueue false,
       Action.log "error" "Error adding job to queue",
       Action.log "error" "Error processing webhook"] := by
    rw [endpoint_of_proceed hv hnull]
    rfl
  exact ⟨h1, by rw [h1]; rfl⟩

/-- Witness for C2 at a concrete verified body with a failing queue. -/
theorem claim_C2_witness :
    ((fun _ => some ()) [49] = some ())
    ∧ webhookEndpoint (fun _ => some ()) (fun _ => false) [115, 50]
        (some (hmacBase64 [115, 50] [49])) [49] false =
        [Action.log "info" "HMAC signature verified successfully",
         Action.log "info" "Webhook received", Action.respond 200, Action.enqueue false,
         Action.log "error" "Error adding job to queue",
         Action.log "error" "Error processing webhook"] :=
  ⟨rfl, (claim_C2 (fun _ => some ()) (fun _ => false) [115, 50] [49] () rfl rfl).1⟩

set_option maxRecDepth 100000 in
set_option maxHeartbeats 2000000 in
/-- Claim C6 counterexample: the raw body null (bytes [110, 117, 108,
108]) with a correct signature passes verification — JSON.parse
succeeds and yields null, which the oracles reflect — yet the endpoint
sends no response at all: the handler throws at its first payload
property access, before res.status(200), and its catch only logs.  A
verified request thus goes entirely unacknowledged, refuting the claim
that every verified request receives the success acknowledgment. -/
theorem claim_C6_cex :
    (verifyShopifyWebhook (fun _ => some ()) [115, 51]
        (some (hmacBase64 [115, 51] [110, 117, 108, 108])) [110, 117, 108, 108]).2 =
      VerifyResult.proceed ()
    ∧ responsesOf (webhookEndpoint (fun _ => some ()) (fun _ => true) [115, 51]
        (some (hmacBase64 [115, 51] [110, 117, 108, 108])) [110, 117, 108, 108] true) =
      [] := by
  constructor <;> decide

/-- Claim C6 (amended): on every request that passes verification with
a parsed payload that is not JSON null, the endpoint's trace is the
success log, the receipt log, the 200 response, and only then the
enqueue call and its follow-up logging — the success acknowledgment is
sent before the enqueue call returns and never waits for
business-handler execution (which is not part of the request's trace at
all).  A verified JSON-null payload instead throws at the handler's
first property access and no response is sent. -/
theorem claim_C6 {P : Type} (parse : List Nat → Option P) (isNull : P → Bool)
    (secret : List Nat) (hmacHeader : Option (List Nat)) (body : List Nat) (p : P)
    (enqueueOk : Bool)
    (hv : (verifyShopifyWebhook parse secret hmacHeader body).2 = VerifyResult.proceed p)
    (hnull : isNull p = false) :
    webhookEndpoint parse isNull secret hmacHeader body enqueueOk =
      [Action.log "info" "HMAC signature verified successfully",
       Action.log "info" "Webhook received", Action.respond 200, Action.enqueue enqueueOk]
      ++ (if enqueueOk then [Action.log "info" "Job added to queue"]
          else [Action.log "error" "Error adding job to queue",
                Action.log "error" "Error processing webhook"])
    ∧ responsesOf (webhookEndpoint parse isNull secret hmacHeader body enqueueOk) =
        [200] := by
  have hpair := verify_pair_of_proceed parse secret hmacHeader body p hv
  have h1 : webhookEndpoint parse isNull secret hmacHeader body enqueueOk =
      [Action.log "info" "HMAC signature verified successfully",
       Action.log "info" "Webhook received", Action.respond 200, Action.enqueue enqueueOk]
      ++ (if enqueueOk then [Action.log "info" "Job added to queue"]
          else [Action.log "error" "Error adding job to queue",
                Action.log "error" "Error processing webhook"]) := by
    rw [endpoint_of_proceed hpair hnull]
    cases enqueueOk <;> rfl
  refine ⟨h1, ?_⟩
  rw [h1]
  cases enqueueOk <;> rfl

set_option maxRecDepth 100000 in
set_option maxHeartbeats 2000000 in
/-- Witness for C6 at a concrete verified request with a non-null
payload and a healthy queue. -/
theorem claim_C6_witness :
    (verifyShopifyWebhook (fun _ => some ()) [115, 51]
        (some (hmacBase64 [115, 51] [50])) [50]).2 = VerifyResult.proceed ()
    ∧ responsesOf (webhookEndpoint (fun _ => some ()) (fun _ => false) [115, 51]
        (some (hmacBase64 [115, 51] [50])) [50] true) = [200] :=
  ⟨by decide,
   (claim_C6 (fun _ => some ()) (fun _ => false) [115, 51]
      (some (hmacBase64 [115, 51] [50])) [50] () true (by decide) rfl).2⟩

set_option maxRecDepth 100000 in
set_option maxHeartbeats 2000000 in
/-- Claim C8 counterexample: a payload that verifies but is
structurally malformed (the byte string [, on which JSON.parse throws)
IS surfaced to the producer as an error status — a 500 — although it is
neither an authentication failure nor queue unavailability; no job is
enqueued for it. -/
theorem claim_C8_cex :
    responsesOf (webhookEndpoint (fun _ => (none : Option Unit)) (fun _ => false) [107, 50]
        (some (hmacBase64 [107, 50] [91])) [91] true) = [500]
    ∧ enqueuesOf (webhookEndpoint (fun _ => (none : Option Unit)) (fun _ => false) [107, 50]
        (some (hmacBase64 [107, 50] [91])) [91] true) = [] := by
  constructor <;> decide

/-- Claim C8 (amended): what the endpoint surfaces to the producer is:
401 when the falsy header check fires (absent or empty header value) or
on an equal-length digest mismatch; 500 for a present non-empty header
whose length differs from the digest's, or for a verified body that
fails to parse; 200 for a verified, parseable, non-null payload —
regardless of whether the enqueue succeeds, so queue unavailability is
never surfaced; and no status at all for a verified JSON-null payload
(the handler throws before responding).  A verified but malformed
payload is answered 500 and is never enqueued (hence never retried).
The header quantification is restricted to the non-empty values that a
present header can denote under the falsy-check abstraction. -/
theorem claim_C8 {P : Type} (parse : List Nat → Option P) (isNull : P → Bool)
    (secret body : List Nat) (hmacHeader : Option (List Nat)) (enqueueOk : Bool) :
    responsesOf (webhookEndpoint parse isNull secret none body enqueueOk) = [401]
    ∧ (∀ header, header ≠ [] → header.length ≠ (hmacBase64 secret body).length →
        responsesOf (webhookEndpoint parse isNull secret (some header) body enqueueOk) =
          [500])
    ∧ (∀ header, header.length = (hmacBase64 secret body).length →
        header ≠ hmacBase64 secret body →
        responsesOf (webhookEndpoint parse isNull secret (some header) body enqueueOk) =
          [401])
    ∧ (parse body = none →
        responsesOf (webhookEndpoint parse isNull secret
          (some (hmacBase64 secret body)) body enqueueOk) = [500])
    ∧ (∀ p, parse body = some p → isNull p = false →
        responsesOf (webhookEndpoint parse isNull secret
          (some (hmacBase64 secret body)) body enqueueOk) = [200])
    ∧ (∀ p, parse body = some p → isNull p = true →
        responsesOf (webhookEndpoint parse isNull secret
          (some (hmacBase64 secret body)) body enqueueOk) = [])
    ∧ ((parse body).isSome = false →
        enqueuesOf (webhookEndpoint parse isNull secret hmacHeader body enqueueOk) = []) := by
  refine ⟨rfl, ?_, ?_, ?_, ?_, ?_, ?_⟩
  · intro header _ hlen
    rw [endpoint_of_reject (verify_badlen parse secret body header hlen)]
    rfl
  · intro header hlen heq
    rw [endpoint_of_reject (verify_mismatch parse secret body header hlen heq)]
    rfl
  · intro hq
    rw [endpoint_of_reject (verify_parsefail parse secret body hq)]
    rfl
  · intro p hq hn
    rw [endpoint_of_proceed (verify_valid parse secret body p hq) hn]
    cases enqueueOk <;> rfl
  · intro p hq hn
    rw [endpoint_of_proceed_null (verify_valid parse secret body p hq) hn]
    rfl
  · intro hps
    rcases hmacHeader with _ | header
    · rfl
    · rcases hq : parse body with _ | q
      · by_cases hlen : header.length = (hmacBase64 secret body).length
        · by_cases heq : header = hmacBase64 secret body
          · subst heq
            rw [endpoint_of_reject (verify_parsefail parse secret body hq)]
            rfl
          · rw [endpoint_of_reject (verify_mismatch parse secret body header hlen heq)]
            rfl
        · rw [endpoint_of_reject (verify_badlen parse secret body header hlen)]
          rfl
      · rw [hq] at hps
        simp at hps

/-- Witness for C8: an unparseable body with no signature header gets
the 401 of the authentication gate and is never enqueued. -/
theorem claim_C8_witness :
    ((fun _ => (none : Option Unit)) [93]).isSome = false
    ∧ enqueuesOf (webhookEndpoint (fun _ => (none : Option Unit)) (fun _ => false) [107, 51]
        none [93] true) = [] :=
  ⟨rfl,
   (claim_C8 (fun _ => (none : Option Unit)) (fun _ => false) [107, 51] [93]
      none true).2.2.2.2.2.2 rfl⟩

end WebhookRepo
